import Mathlib

/-!
Jarvis service bootstrap: a shallow embedding.

The Go packages `pkg/utils`, `pkg/config`, `pkg/database`, `pkg/logger`,
`internal/core` and `cmd/jarvis` are embedded as Lean definitions, each
package in a namespace of its own.  Go `error` values are the inductive
`GoErr`, a `(*T, error)` result is a pair of options (`none` is `nil`), the
process environment is a lookup function, and the external PostgreSQL/Redis
drivers are an explicit record of outcomes threaded through the code.
-/

/-! ## Go errors -/

deriving instance DecidableEq for Except

/-- Go `error` values built by this program: `errors.New(s)` and the
wrapper produced by `fmt.Errorf` with a `%w` verb. -/
inductive GoErr where
  | errorString (s : String)
  | wrapError (msg : String) (err : GoErr)
  deriving DecidableEq, Repr

/-- The interface `error`: a type with a method `Error() string`. -/
class GoError (ε : Type) where
  Error : ε → String

/-- Method `Error()` of `*errors.errorString` and `*fmt.wrapError`. -/
def GoErr.Error : GoErr → String
  | .errorString s => s
  | .wrapError msg _ => msg

instance : GoError GoErr := ⟨GoErr.Error⟩

/-- Method `Unwrap()` of `*fmt.wrapError` (absent on `errorString`). -/
def GoErr.Unwrap : GoErr → Option GoErr
  | .errorString _ => none
  | .wrapError _ err => some err

/-- The call `fmt.Errorf(pre + "%w", err)` for a literal `pre` without verbs. -/
def fmtErrorf (pre : String) (err : GoErr) : GoErr :=
  .wrapError (pre ++ err.Error) err

/-! ## Package `utils` (src/pkg/utils/errors.go) -/

namespace utils

/-- Struct `AppError`; the field `Err` is an interface value, `none` is `nil`. -/
structure AppError (ε : Type) where
  Code : Int
  Message : String
  Err : Option ε
  deriving DecidableEq, Repr

/-- Method `(*AppError).Error`: `fmt.Sprintf("%s: %s", e.Message, e.Err.Error())`
when `e.Err != nil`, else `e.Message`. -/
def AppError.Error {ε : Type} [GoError ε] (e : AppError ε) : String :=
  match e.Err with
  | some err => e.Message ++ ": " ++ GoError.Error err
  | none => e.Message

instance {ε : Type} [GoError ε] : GoError (AppError ε) := ⟨AppError.Error⟩

/-- Constant `http.StatusBadRequest`. -/
def StatusBadRequest : Int := 400
/-- Constant `http.StatusUnauthorized`. -/
def StatusUnauthorized : Int := 401
/-- Constant `http.StatusNotFound`. -/
def StatusNotFound : Int := 404
/-- Constant `http.StatusInternalServerError`. -/
def StatusInternalServerError : Int := 500

def NewAppError {ε : Type} (code : Int) (message : String) (err : Option ε) : AppError ε :=
  { Code := code, Message := message, Err := err }

def BadRequestError {ε : Type} (message : String) (err : Option ε) : AppError ε :=
  NewAppError StatusBadRequest message err

def UnauthorizedError {ε : Type} (message : String) (err : Option ε) : AppError ε :=
  NewAppError StatusUnauthorized message err

def NotFoundError {ε : Type} (message : String) (err : Option ε) : AppError ε :=
  NewAppError StatusNotFound message err

def InternalServerError {ε : Type} (message : String) (err : Option ε) : AppError ε :=
  NewAppError StatusInternalServerError message err

end utils

/-! ## Standard library `strconv.Atoi` -/

namespace strconv

/-- The two sentinel causes of a `*strconv.NumError`. -/
inductive NumError where
  | ErrSyntax
  | ErrRange
  deriving DecidableEq, Repr

/-- Constant `strconv.IntSize` on a 64-bit target. -/
def IntSize : Nat := 64

/-- Largest `uint64`. -/
def maxUint64 : Nat := 2 ^ 64 - 1

/-- The digit loop of `ParseUint(s, 10, 64)`: a byte outside `0..9` is a
syntax error, and an accumulator that would leave `uint64` is a range
error (`n >= cutoff` guards `n*10`, the second test guards `n*10 + d`). -/
def parseUintLoop : List Char → Nat → Except NumError Nat
  | [], n => .ok n
  | c :: cs, n =>
    if c.isDigit then
      if n ≥ maxUint64 / 10 + 1 then .error .ErrRange
      else
        let n1 := n * 10 + (c.toNat - '0'.toNat)
        if n1 > maxUint64 then .error .ErrRange else parseUintLoop cs n1
    else .error .ErrSyntax

/-- Function `ParseUint(s, 10, 64)`. -/
def ParseUint (s : List Char) : Except NumError Nat :=
  if s = [] then .error .ErrSyntax else parseUintLoop s 0

/-- Function `ParseInt(s, 10, 0)`: an optional sign, then `ParseUint`, then
the check against `1 << (IntSize-1)`.  A range error of `ParseUint` stays a
range error here. -/
def ParseInt (s : List Char) : Except NumError Int :=
  if s = [] then .error .ErrSyntax
  else
    let neg := s.head? = some '-'
    let body := if s.head? = some '+' ∨ s.head? = some '-' then s.tail else s
    match ParseUint body with
    | .error e => .error e
    | .ok un =>
      let cutoff := 2 ^ (IntSize - 1)
      if ¬ neg ∧ un ≥ cutoff then .error .ErrRange
      else if neg ∧ un > cutoff then .error .ErrRange
      else .ok (if neg then - (un : Int) else (un : Int))

/-- Function `strconv.Atoi`.  Its fast path for short inputs computes the
same result as `ParseInt(s, 10, 0)`, which is what is embedded. -/
def Atoi (s : String) : Except NumError Int :=
  ParseInt s.data

end strconv

/-! ## Package `config` (src/pkg/config/config.go) -/

namespace config

/-- The process environment: `os.LookupEnv`, `none` when the variable is unset. -/
abbrev Environ := String → Option String

/-- Function `os.Getenv`: the value, or the empty string when unset. -/
def Getenv (env : Environ) (key : String) : String :=
  (env key).getD ""

/-- Function `os.Unsetenv` as a transformation of the environment. -/
def Unsetenv (env : Environ) (key : String) : Environ :=
  fun k => if k = key then none else env k

structure Config where
  HTTPPort : String
  HTTPHost : String
  DatabaseURL : String
  DBHost : String
  DBPort : String
  DBName : String
  DBUser : String
  DBPassword : String
  DBSSLMode : String
  RedisURL : String
  RedisHost : String
  RedisPort : String
  RedisPassword : String
  RedisDB : Int
  OpenAIAPIKey : String
  ModelName : String
  LogLevel : String
  JWTSecret : String
  deriving DecidableEq, Repr

def getEnv (env : Environ) (key defaultValue : String) : String :=
  let value := Getenv env key
  if value ≠ "" then value else defaultValue

def getEnvAsInt (env : Environ) (key : String) (defaultValue : Int) : Int :=
  let value := Getenv env key
  if value ≠ "" then
    match strconv.Atoi value with
    | .ok intValue => intValue
    | .error _ => defaultValue
  else defaultValue

def Load (env : Environ) : Option Config × Option GoErr :=
  let cfg : Config :=
    { HTTPPort := getEnv env "HTTP_PORT" "8080"
      HTTPHost := getEnv env "HTTP_HOST" "localhost"
      DatabaseURL := getEnv env "DATABASE_URL" ""
      DBHost := getEnv env "DB_HOST" "localhost"
      DBPort := getEnv env "DB_PORT" "5432"
      DBName := getEnv env "DB_NAME" "jarvis"
      DBUser := getEnv env "DB_USER" "postgres"
      DBPassword := getEnv env "DB_PASSWORD" ""
      DBSSLMode := getEnv env "DB_SSL_MODE" "disable"
      RedisURL := getEnv env "REDIS_URL" ""
      RedisHost := getEnv env "REDIS_HOST" "localhost"
      RedisPort := getEnv env "REDIS_PORT" "6379"
      RedisPassword := getEnv env "REDIS_PASSWORD" ""
      RedisDB := getEnvAsInt env "REDIS_DB" 0
      OpenAIAPIKey := getEnv env "OPENAI_API_KEY" ""
      ModelName := getEnv env "MODEL_NAME" "gpt-3.5-turbo"
      LogLevel := getEnv env "LOG_LEVEL" "info"
      JWTSecret := getEnv env "JWT_SECRET" "your-secret-key" }
  (some cfg, none)

/-- The eighteen variable names read by `Load`. -/
def recognized : List String :=
  ["HTTP_PORT", "HTTP_HOST", "DATABASE_URL", "DB_HOST", "DB_PORT", "DB_NAME",
   "DB_USER", "DB_PASSWORD", "DB_SSL_MODE", "REDIS_URL", "REDIS_HOST",
   "REDIS_PORT", "REDIS_PASSWORD", "REDIS_DB", "OPENAI_API_KEY", "MODEL_NAME",
   "LOG_LEVEL", "JWT_SECRET"]

/-- The configuration the documentation lists for an empty environment. -/
def defaults : Config :=
  { HTTPPort := "8080", HTTPHost := "localhost", DatabaseURL := "",
    DBHost := "localhost", DBPort := "5432", DBName := "jarvis",
    DBUser := "postgres", DBPassword := "", DBSSLMode := "disable",
    RedisURL := "", RedisHost := "localhost", RedisPort := "6379",
    RedisPassword := "", RedisDB := 0, OpenAIAPIKey := "",
    ModelName := "gpt-3.5-turbo", LogLevel := "info",
    JWTSecret := "your-secret-key" }

/-- The environment with nothing set. -/
def emptyEnv : Environ := fun _ => none

/-- The environment of `TestLoad`, with a database index added. -/
def testEnv : Environ := fun k =>
  if k = "HTTP_PORT" then some "9090"
  else if k = "LOG_LEVEL" then some "debug"
  else if k = "REDIS_DB" then some "3"
  else none

/-- An environment in which `HTTP_PORT` is set to the empty string. -/
def emptyPortEnv : Environ := fun k =>
  if k = "HTTP_PORT" then some "" else none

/-- An environment in which `REDIS_DB` holds the decimal text of `2^63`. -/
def bigIndexEnv : Environ := fun k =>
  if k = "REDIS_DB" then some "9223372036854775808" else none

/-- An environment in which `REDIS_DB` is not a number and a port is set. -/
def badIndexEnv : Environ := fun k =>
  if k = "REDIS_DB" then some "abc"
  else if k = "HTTP_PORT" then some "9090"
  else none

end config

/-! ## Package `database` (src/pkg/database/database.go) -/

namespace database

/-- Struct `redis.Options`, the three fields this program sets. -/
structure RedisOptions where
  Addr : String
  Password : String
  DB : Int
  deriving DecidableEq, Repr

/-- What the external drivers answer: the error of `pgxpool.New` for a
connection string, of `(*pgxpool.Pool).Ping`, the result of
`redis.ParseURL`, the error of the Redis `Ping` and of `(*redis.Client).Close`. -/
structure Driver where
  poolNew : String → Option GoErr
  poolPing : String → Option GoErr
  parseURL : String → Except GoErr RedisOptions
  clientPing : RedisOptions → Option GoErr
  clientClose : Option GoErr

/-- State of a connection handle. -/
inductive Handle where
  | unopened
  | opened
  | closed
  deriving DecidableEq, Repr

/-- Calls made on the drivers, in order. -/
inductive Call where
  | pgxpoolNew (connString : String)
  | poolPing
  | poolClose
  | redisParseURL (url : String)
  | redisNewClient (opt : RedisOptions)
  | clientPing
  | clientClose
  deriving DecidableEq, Repr

/-- The PostgreSQL pool handle, the Redis client handle, and the calls so far. -/
structure Conns where
  pg : Handle
  redis : Handle
  calls : List Call
  deriving DecidableEq, Repr

/-- A run-time panic of the Go program. -/
inductive Panic where
  | nilDereference
  deriving DecidableEq, Repr

/-- Code that acts on the handles and may panic. -/
abbrev Ext := StateT Conns (Except Panic)

/-- Type `pgxpool.Pool`; a `*pgxpool.Pool` is an `Option Pool`. -/
structure Pool where
  connString : String
  deriving DecidableEq, Repr

/-- Type `redis.Client`; a `*redis.Client` is an `Option Client`. -/
structure Client where
  opt : RedisOptions
  deriving DecidableEq, Repr

structure DB where
  Postgres : Option Pool
  Redis : Option Client
  deriving DecidableEq, Repr

def record (c : Call) : Ext Unit :=
  modify fun st => { st with calls := st.calls ++ [c] }

/-- Function `pgxpool.New`: a pool handle is opened unless the driver rejects the string. -/
def pgxpoolNew (d : Driver) (connString : String) : Ext (Option Pool × Option GoErr) := do
  record (.pgxpoolNew connString)
  match d.poolNew connString with
  | some err => pure (none, some err)
  | none => do
    modify fun st => { st with pg := .opened }
    pure (some ⟨connString⟩, none)

/-- Method `(*pgxpool.Pool).Ping`. -/
def Pool.Ping (d : Driver) : Option Pool → Ext (Option GoErr)
  | none => throw .nilDereference
  | some p => do
    record .poolPing
    pure (d.poolPing p.connString)

/-- Method `(*pgxpool.Pool).Close`; it returns nothing. -/
def Pool.Close : Option Pool → Ext Unit
  | none => throw .nilDereference
  | some _ => do
    record .poolClose
    modify fun st => { st with pg := .closed }

/-- Function `redis.ParseURL`. -/
def redisParseURL (d : Driver) (url : String) : Ext (Option RedisOptions × Option GoErr) := do
  record (.redisParseURL url)
  match d.parseURL url with
  | .ok o => pure (some o, none)
  | .error err => pure (none, some err)

/-- Function `redis.NewClient`: it opens a client handle and does not connect. -/
def redisNewClient : Option RedisOptions → Ext (Option Client)
  | none => throw .nilDereference
  | some o => do
    record (.redisNewClient o)
    modify fun st => { st with redis := .opened }
    pure (some ⟨o⟩)

/-- The call `redisClient.Ping(ctx).Err()`. -/
def Client.Ping (d : Driver) : Option Client → Ext (Option GoErr)
  | none => throw .nilDereference
  | some c => do
    record .clientPing
    pure (d.clientPing c.opt)

/-- Method `(*redis.Client).Close`. -/
def Client.Close (d : Driver) : Option Client → Ext (Option GoErr)
  | none => throw .nilDereference
  | some _ => do
    record .clientClose
    modify fun st => { st with redis := .closed }
    pure d.clientClose

/-- Lines 54 to 66 of `New`: create the Redis client, ping it, build the bundle. -/
def New.connectRedis (d : Driver) (pgPool : Option Pool) (redisOpt : Option RedisOptions) :
    Ext (Option DB × Option GoErr) := do
  let redisClient ← redisNewClient redisOpt
  match ← Client.Ping d redisClient with
  | some err => do
    Pool.Close pgPool
    pure (none, some (fmtErrorf "failed to connect to Redis: " err))
  | none => pure (some { Postgres := pgPool, Redis := redisClient }, none)

/-- Lines 19 to 25 of `New`: the local variable `pgConnString`. -/
def New.pgConnString (cfg : config.Config) : String :=
  if cfg.DatabaseURL ≠ "" then cfg.DatabaseURL
  else "postgresql://" ++ cfg.DBUser ++ ":" ++ cfg.DBPassword ++ "@" ++ cfg.DBHost ++ ":"
    ++ cfg.DBPort ++ "/" ++ cfg.DBName ++ "?sslmode=" ++ cfg.DBSSLMode

def New (d : Driver) (cfg : config.Config) : Ext (Option DB × Option GoErr) := do
  let pgConnString := New.pgConnString cfg
  match ← pgxpoolNew d pgConnString with
  | (_, some err) => pure (none, some (fmtErrorf "failed to connect to PostgreSQL: " err))
  | (pgPool, none) => do
    match ← Pool.Ping d pgPool with
    | some err => do
      Pool.Close pgPool
      pure (none, some (fmtErrorf "failed to ping PostgreSQL: " err))
    | none => do
      if cfg.RedisURL ≠ "" then
        match ← redisParseURL d cfg.RedisURL with
        | (_, some err) => do
          Pool.Close pgPool
          pure (none, some (fmtErrorf "failed to parse Redis URL: " err))
        | (redisOpt, none) => New.connectRedis d pgPool redisOpt
      else
        New.connectRedis d pgPool
          (some { Addr := cfg.RedisHost ++ ":" ++ cfg.RedisPort,
                  Password := cfg.RedisPassword,
                  DB := cfg.RedisDB })

def DB.Close (d : Driver) (db : DB) : Ext (Option GoErr) := do
  let pgErr : Option GoErr := none
  if db.Postgres ≠ none then
    Pool.Close db.Postgres
  let redisErr : Option GoErr ←
    if db.Redis ≠ none then Client.Close d db.Redis else pure none
  match pgErr with
  | some err => pure (some (fmtErrorf "PostgreSQL close error: " err))
  | none =>
    match redisErr with
    | some err => pure (some (fmtErrorf "Redis close error: " err))
    | none => pure none

/-- No handle acquired yet and no call made. -/
def fresh : Conns := { pg := .unopened, redis := .unopened, calls := [] }

/-- The configuration of `TestInvalidConfig`. -/
def invalidConfig : config.Config :=
  { config.defaults with
    DatabaseURL := "invalid://connection/string", RedisURL := "invalid://redis/url",
    HTTPPort := "", HTTPHost := "", DBHost := "", DBPort := "", DBName := "", DBUser := "",
    DBSSLMode := "", RedisHost := "", RedisPort := "", ModelName := "", LogLevel := "",
    JWTSecret := "" }

/-- Drivers that accept only URLs of their own scheme and whose servers answer. -/
def strictDriver : Driver :=
  { poolNew := fun s =>
      if "postgresql://".data.isPrefixOf s.data then none
      else some (.errorString "cannot parse connection string")
    poolPing := fun _ => none
    parseURL := fun s =>
      if "redis://".data.isPrefixOf s.data then .ok { Addr := s, Password := "", DB := 0 }
      else .error (.errorString "redis: invalid URL scheme")
    clientPing := fun _ => none
    clientClose := none }

/-- Drivers as `strictDriver` whose PostgreSQL parser accepts everything. -/
def laxPoolDriver : Driver :=
  { strictDriver with poolNew := fun _ => none }

/-- Drivers with a reachable PostgreSQL server and an unreachable Redis server. -/
def redisDownDriver : Driver :=
  { strictDriver with clientPing := fun _ => some (.errorString "dial tcp: connection refused") }

/-- Drivers with an unreachable PostgreSQL server. -/
def postgresDownDriver : Driver :=
  { strictDriver with poolPing := fun _ => some (.errorString "dial tcp: connection refused") }

end database

/-! ## Package `logger` (src/pkg/logger/logger.go) -/

namespace logger

/-- Type `slog.Level`, the four levels this program uses. -/
inductive Level where
  | debug
  | info
  | warn
  | error
  deriving DecidableEq, Repr

/-- The integer value of a `slog.Level`. -/
def Level.value : Level → Int
  | .debug => -4
  | .info => 0
  | .warn => 4
  | .error => 8

/-- A log record: its severity and its message. -/
structure Record where
  level : Level
  msg : String
  deriving DecidableEq, Repr

/-- What the logger has been asked to log (`calls`) and what the handler,
which drops records below its level, wrote to standard output (`stdout`). -/
structure Sink where
  calls : List Record
  stdout : List Record
  deriving DecidableEq, Repr

/-- Struct `slogLogger`, the implementation of interface `Logger`: a
handler with a minimum level. -/
structure Logger where
  level : Level
  deriving DecidableEq, Repr

def New (level : String) : Logger :=
  let logLevel :=
    if level = "debug" then Level.debug
    else if level = "info" then Level.info
    else if level = "warn" then Level.warn
    else if level = "error" then Level.error
    else Level.info
  { level := logLevel }

/-- A call of the wrapped `*slog.Logger` at level `lv`. -/
def Logger.log (l : Logger) (lv : Level) (msg : String) (o : Sink) : Sink :=
  { calls := o.calls ++ [⟨lv, msg⟩],
    stdout := if l.level.value ≤ lv.value then o.stdout ++ [⟨lv, msg⟩] else o.stdout }

def Logger.Debug (l : Logger) (msg : String) (o : Sink) : Sink := l.log .debug msg o

def Logger.Info (l : Logger) (msg : String) (o : Sink) : Sink := l.log .info msg o

def Logger.Warn (l : Logger) (msg : String) (o : Sink) : Sink := l.log .warn msg o

def Logger.Error (l : Logger) (msg : String) (o : Sink) : Sink := l.log .error msg o

/-- Method `Fatal`: an error-level record, then `os.Exit(1)`; the exit
status is returned with the sink. -/
def Logger.Fatal (l : Logger) (msg : String) (o : Sink) : Sink × Nat :=
  (l.log .error msg o, 1)

/-- A sink with nothing logged. -/
def Sink.empty : Sink := { calls := [], stdout := [] }

end logger

/-! ## Package `core` (src/internal/core/app.go) -/

namespace core

/-- Struct `App`.  The field `logger` is a value of the interface
`logger.Logger`: `none` is the nil interface, `some l` the implementation `l`. -/
structure App where
  config : Option config.Config
  logger : Option logger.Logger
  deriving DecidableEq, Repr

def NewApp (cfg : Option config.Config) (log : Option logger.Logger) :
    Option App × Option GoErr :=
  (some { config := cfg, logger := log }, none)

/-- Where control is inside `App.Run`, by line of app.go: the start
message (23), the receive from `ctx.Done()` (29), the stop message (30),
`return nil` (31), having returned with an error value, and having
panicked on a nil interface value. -/
inductive RunPC where
  | line23
  | line29
  | line30
  | line31
  | returned (err : Option GoErr)
  | panicked
  deriving DecidableEq, Repr

structure RunState where
  pc : RunPC
  out : logger.Sink
  deriving DecidableEq, Repr

/-- The first message of `Run`. -/
def startRecord : logger.Record := ⟨.info, "Starting Jarvis AI Assistant..."⟩

/-- The last message of `Run`. -/
def stopRecord : logger.Record := ⟨.info, "Application stopped"⟩

/-- One step of `App.Run`.  The argument `ctx` is the `context.Context` as
the step finds it: `none` is the nil interface, `some done` a context whose
channel `ctx.Done()` is closed exactly when `done`.  A method call on a nil
logger (lines 23 and 30) or on a nil context (line 29) panics; the receive
on line 29 does not move while the channel is open. -/
def App.Run.step (a : App) (ctx : Option Bool) (s : RunState) : RunState :=
  match s.pc with
  | .line23 =>
    match a.logger with
    | none => { s with pc := .panicked }
    | some l => { pc := .line29, out := l.Info "Starting Jarvis AI Assistant..." s.out }
  | .line29 =>
    match ctx with
    | none => { s with pc := .panicked }
    | some done => if done then { s with pc := .line30 } else s
  | .line30 =>
    match a.logger with
    | none => { s with pc := .panicked }
    | some l => { pc := .line31, out := l.Info "Application stopped" s.out }
  | .line31 => { s with pc := .returned none }
  | .returned _ => s
  | .panicked => s

/-- Running `App.Run` from its entry; `ctxs` lists, step by step, the
context as the step finds it. -/
def App.Run.exec (a : App) (o : logger.Sink) (ctxs : List (Option Bool)) : RunState :=
  ctxs.foldl (fun s c => App.Run.step a c s) { pc := .line23, out := o }

/-- What is known of `App.Run` at each line when the logger is the non-nil
`l` and the context is non-nil, for an initial sink `o`; `seen` tells
whether the context has been observed cancelled at some step. -/
def RunInv (l : logger.Logger) (o : logger.Sink) (seen : Bool) (s : RunState) : Prop :=
  match s.pc with
  | .line23 => s.out = o
  | .line29 => s.out = l.Info "Starting Jarvis AI Assistant..." o
  | .line30 => s.out = l.Info "Starting Jarvis AI Assistant..." o ∧ seen = true
  | .line31 =>
    s.out = l.Info "Application stopped"
      (l.Info "Starting Jarvis AI Assistant..." o) ∧ seen = true
  | .returned e =>
    e = none ∧ s.out = l.Info "Application stopped"
      (l.Info "Starting Jarvis AI Assistant..." o) ∧ seen = true
  | .panicked => False

/-- An application built by `NewApp` with a nil logger. -/
def nilLoggerApp : App :=
  { config := some config.defaults, logger := none }

/-- An application built by `NewApp` with an info-level logger. -/
def infoApp : App :=
  { config := some config.defaults, logger := some (logger.New "info") }

end core

/-! ## Package `main` (src/cmd/jarvis/main.go) -/

namespace jarvis

/-- The two signals registered with `signal.Notify`. -/
inductive Signal where
  | SIGINT
  | SIGTERM
  deriving DecidableEq, Repr

/-- Where the goroutine of lines 39 to 43 is: not spawned, at the receive
from `sigChan` (40), at the shutdown message (41), at `cancel()` (42), done. -/
inductive ListenerPC where
  | unspawned
  | line40
  | line41
  | line42
  | finished
  deriving DecidableEq, Repr

/-- Where `main` is from line 32 on: `context.WithCancel` (32), the channel
and `signal.Notify` (36), the `go` statement (39), inside `app.Run` (45), the
fatal branch (46), the deferred `cancel()` on return, the same deferred call
while a panic of `Run` unwinds, exited with a status, or killed by a signal
that arrived before `signal.Notify`. -/
inductive MainPC where
  | line32
  | line36
  | line39
  | line45 (r : core.RunPC)
  | line46 (err : GoErr)
  | deferred
  | panicking
  | exited (status : Nat)
  | killed
  deriving DecidableEq, Repr

/-- What happened, in order. -/
inductive Event where
  | delivered (sig : Signal)
  | received (sig : Signal)
  | shutdownLogged
  | cancel
  | runReturned
  deriving DecidableEq, Repr

structure Sys where
  main : MainPC
  listener : ListenerPC
  notify : Bool
  sigChan : List Signal
  ctxDone : Bool
  out : logger.Sink
  trace : List Event
  deriving DecidableEq, Repr

/-- Who moves next: the operating system sends a signal, the main goroutine
takes a step, or the listener goroutine takes a step. -/
inductive Action where
  | signal (sig : Signal)
  | main
  | listener
  deriving DecidableEq, Repr

/-- The message of line 41. -/
def shutdownRecord : logger.Record := ⟨.info, "Shutting down..."⟩

/-- The process is over: `main` returned, `os.Exit` ran, or a signal killed it. -/
def Sys.over (s : Sys) : Bool :=
  match s.main with
  | .exited _ => true
  | .killed => true
  | _ => false

/-- The call `app.Run(ctx)` of line 45 has returned; status 2 is the exit
after a panic, where it has not. -/
def Sys.runReturned (s : Sys) : Bool :=
  match s.main with
  | .line45 (.returned _) => true
  | .line46 _ => true
  | .deferred => true
  | .exited status => decide (status ≠ 2)
  | _ => false

/-- The function `cancel` of `context.WithCancel`: only its first call has an effect. -/
def cancel (s : Sys) : Sys :=
  if s.ctxDone then s else { s with ctxDone := true, trace := s.trace ++ [.cancel] }

/-- A signal arrives.  Before `signal.Notify` the default action ends the
process; after it the signal goes to `sigChan`, of capacity 1, and is dropped
when the channel is full. -/
def signalStep (sig : Signal) (s : Sys) : Sys :=
  if s.over then s
  else if ¬ s.notify then { s with main := .killed }
  else if s.sigChan.length < 1 then
    { s with sigChan := s.sigChan ++ [sig], trace := s.trace ++ [.delivered sig] }
  else s

/-- The value of `app` after line 26: `core.NewApp(cfg, logger)`, where
`logger` is the value of `logger.New`, which is never nil. -/
def app (cfg : Option config.Config) (lg : logger.Logger) : core.App :=
  { config := cfg, logger := some lg }

/-- One step of the goroutine of lines 39 to 43; `lg` is the variable
`logger` of `main`. -/
def listenerStep (lg : logger.Logger) (s : Sys) : Sys :=
  if s.over then s
  else
    match s.listener with
    | .unspawned => s
    | .line40 =>
      match s.sigChan with
      | [] => s
      | sig :: rest =>
        { s with listener := .line41, sigChan := rest, trace := s.trace ++ [.received sig] }
    | .line41 =>
      { s with listener := .line42, out := lg.Info "Shutting down..." s.out,
               trace := s.trace ++ [.shutdownLogged] }
    | .line42 => { cancel s with listener := .finished }
    | .finished => s

/-- One step of `main` from line 32 on; `cfg` and `lg` are the variables
`cfg` and `logger` of `main`.  A panic of `Run` runs the deferred `cancel()`
and ends the process with status 2. -/
def mainStep (cfg : Option config.Config) (lg : logger.Logger) (s : Sys) : Sys :=
  match s.main with
  | .line32 => { s with main := .line36 }
  | .line36 => { s with main := .line39, notify := true }
  | .line39 => { s with main := .line45 .line23, listener := .line40 }
  | .line45 (.returned (some err)) => { s with main := .line46 err }
  | .line45 (.returned none) => { s with main := .deferred }
  | .line45 r =>
    let rs := core.App.Run.step (app cfg lg) (some s.ctxDone) { pc := r, out := s.out }
    match rs.pc with
    | .returned err =>
      { s with main := .line45 (.returned err), out := rs.out, trace := s.trace ++ [.runReturned] }
    | .panicked => { s with main := .panicking, out := rs.out }
    | pc => { s with main := .line45 pc, out := rs.out }
  | .line46 _ =>
    let r := lg.Fatal "Application error:" s.out
    { s with main := .exited r.2, out := r.1 }
  | .deferred => { cancel s with main := .exited 0 }
  | .panicking => { cancel s with main := .exited 2 }
  | .exited _ => s
  | .killed => s

def step (cfg : Option config.Config) (lg : logger.Logger) (act : Action) (s : Sys) : Sys :=
  match act with
  | .signal sig => signalStep sig s
  | .main => mainStep cfg lg s
  | .listener => listenerStep lg s

/-- The state when `main` reaches line 32. -/
def init (o : logger.Sink) : Sys :=
  { main := .line32, listener := .unspawned, notify := false, sigChan := [],
    ctxDone := false, out := o, trace := [] }

/-- The state after a schedule of actions. -/
def exec (cfg : Option config.Config) (lg : logger.Logger) (o : logger.Sink)
    (acts : List Action) : Sys :=
  acts.foldl (fun s act => step cfg lg act s) (init o)

/-- Lines 17 to 29 of `main`: load the configuration, build the logger and
the application; a failure is fatal, with exit status 1, and the use of a
nil pointer is a panic, with exit status 2. -/
def boot (env : config.Environ) : Except Nat core.App :=
  match config.Load env with
  | (_, some _) => .error 1
  | (none, none) => .error 2
  | (some cfg, none) =>
    let logger := logger.New cfg.LogLevel
    match core.NewApp (some cfg) (some logger) with
    | (_, some _) => .error 1
    | (none, none) => .error 2
    | (some app, none) => .ok app

/-- The order of events of a graceful shutdown caused by signal `sig`. -/
def chain (sig : Signal) : List Event :=
  [.delivered sig, .received sig, .shutdownLogged, .cancel, .runReturned]

/-- How far along `chain` a state is. -/
def stage (s : Sys) : Nat :=
  if s.runReturned then 5
  else
    match s.listener with
    | .unspawned => 0
    | .line40 => 0
    | .line41 => 2
    | .line42 => 3
    | .finished => 4

/-- A trace that has the first `k` events of a graceful shutdown, in order. -/
def traceOk (k : Nat) (t : List Event) : Prop :=
  ∃ sig, List.Sublist ((chain sig).take k) t

/-- What `main` may be doing, given the rest of the state. -/
def mainOk (s : Sys) : Prop :=
  match s.main with
  | .line32 => s.listener = .unspawned
  | .line36 => s.listener = .unspawned
  | .line39 => s.listener = .unspawned
  | .line45 .line23 => True
  | .line45 .line29 => True
  | .line45 .line30 => s.ctxDone = true
  | .line45 .line31 => s.ctxDone = true
  | .line45 (.returned none) => s.ctxDone = true
  | .line45 (.returned (some _)) => False
  | .line45 .panicked => False
  | .line46 _ => False
  | .deferred => s.ctxDone = true
  | .panicking => False
  | .exited 0 => s.ctxDone = true
  | .exited (_ + 1) => False
  | .killed => True

/-- The invariant of the lifecycle, for an initial sink `o`. -/
def Inv (o : logger.Sink) (s : Sys) : Prop :=
  (∀ sig ∈ s.sigChan, Event.delivered sig ∈ s.trace) ∧
  traceOk (stage s) s.trace ∧
  (s.ctxDone = true ↔ s.listener = .finished) ∧
  mainOk s ∧
  (s.listener = .line42 ∨ s.listener = .finished → shutdownRecord ∈ s.out.calls) ∧
  (∀ r ∈ s.out.calls, r.level = .error → r ∈ o.calls) ∧
  (s.notify = true ∨ s.main = .line32 ∨ s.main = .line36 ∨ s.main = .killed) ∧
  (s.ctxDone = false → Event.cancel ∉ s.trace)

/-- A schedule: start, a SIGINT, the listener reacts, `Run` wakes and returns. -/
def sampleSchedule : List Action :=
  [.main, .main, .main, .main, .signal .SIGINT, .listener, .listener, .listener,
   .main, .main, .main]

end jarvis

/-! ## Theorems -/

namespace strconv

theorem digitChar_spec :
    ∀ k, k < 10 → (Nat.digitChar k).isDigit = true ∧ (Nat.digitChar k).toNat - '0'.toNat = k := by
  decide

theorem parseUintLoop_digit (c : Char) (cs : List Char) (n d : Nat)
    (hc : c.isDigit = true) (hd : c.toNat - '0'.toNat = d) (hn : n * 10 + d ≤ maxUint64) :
    parseUintLoop (c :: cs) n = parseUintLoop cs (n * 10 + d) := by
  have h1 : ¬ (n ≥ maxUint64 / 10 + 1) := by
    simp only [maxUint64] at hn ⊢
    omega
  have h2 : ¬ (n * 10 + d > maxUint64) := by omega
  rw [parseUintLoop]
  simp only [hc, if_true, hd, if_neg h1, if_neg h2]

theorem parseUintLoop_toDigitsCore (f : Nat) :
    ∀ (n : Nat) (ds : List Char), n < f → n ≤ maxUint64 →
      parseUintLoop (Nat.toDigitsCore 10 f n ds) 0 = parseUintLoop ds n := by
  induction f with
  | zero => intro n ds h; omega
  | succ f ih =>
    intro n ds hf hmax
    have hd := digitChar_spec (n % 10) (Nat.mod_lt _ (by decide))
    unfold Nat.toDigitsCore
    by_cases h0 : n / 10 = 0
    · have hn : 0 * 10 + n % 10 = n := by omega
      simp only [h0, if_true]
      rw [parseUintLoop_digit _ _ 0 (n % 10) hd.1 hd.2 (by omega), hn]
    · have e : n / 10 * 10 + n % 10 = n := by omega
      simp only [h0, if_false]
      rw [ih (n / 10) _ (by omega) (by omega),
        parseUintLoop_digit _ _ (n / 10) (n % 10) hd.1 hd.2 (by omega), e]

theorem parseUintLoop_toDigits (n : Nat) (h : n ≤ maxUint64) :
    parseUintLoop (Nat.toDigits 10 n) 0 = .ok n := by
  unfold Nat.toDigits
  rw [parseUintLoop_toDigitsCore (n + 1) n [] (by omega) h, parseUintLoop]

theorem ParseUint_toDigits (n : Nat) (h : n ≤ maxUint64) :
    ParseUint (Nat.toDigits 10 n) = .ok n := by
  have hl := parseUintLoop_toDigits n h
  unfold ParseUint
  by_cases he : Nat.toDigits 10 n = []
  · rw [he, parseUintLoop] at hl
    have h0 : n = 0 := by injection hl with h0; exact h0.symm
    subst h0
    exact absurd he (by decide)
  · rw [if_neg he, hl]

theorem toDigits_head (n : Nat) (h : n ≤ maxUint64) (c : Char) (hc : c.isDigit = false) :
    (Nat.toDigits 10 n).head? ≠ some c := by
  have hl := parseUintLoop_toDigits n h
  intro hh
  cases hs : Nat.toDigits 10 n with
  | nil => rw [hs] at hh; simp at hh
  | cons a as =>
    rw [hs] at hh hl
    simp only [List.head?_cons, Option.some.injEq] at hh
    subst hh
    rw [parseUintLoop] at hl
    simp [hc] at hl

theorem ParseInt_toDigits (n : Nat) (h : n < 2 ^ 63) :
    ParseInt (Nat.toDigits 10 n) = .ok (n : Int) := by
  have hmax : n ≤ maxUint64 := by simp only [maxUint64]; omega
  have hu := ParseUint_toDigits n hmax
  have hp := toDigits_head n hmax '+' (by decide)
  have hm := toDigits_head n hmax '-' (by decide)
  have hne : Nat.toDigits 10 n ≠ [] := by
    intro he
    rw [he] at hu
    simp [ParseUint] at hu
  unfold ParseInt
  simp only [if_neg hne, hp, hm, or_self, if_false, hu, IntSize]
  have h1 : ¬ (n ≥ 2 ^ (64 - 1)) := by
    have : (2 : Nat) ^ (64 - 1) = 2 ^ 63 := by norm_num
    omega
  simp
  omega

theorem ParseInt_neg_toDigits (n : Nat) (h : n ≤ 2 ^ 63) :
    ParseInt ('-' :: Nat.toDigits 10 n) = .ok (- (n : Int)) := by
  have hmax : n ≤ maxUint64 := by simp only [maxUint64]; omega
  have hu := ParseUint_toDigits n hmax
  unfold ParseInt
  have h1 : ¬ (n > 2 ^ (64 - 1)) := by
    have : (2 : Nat) ^ (64 - 1) = 2 ^ 63 := by norm_num
    omega
  simp [hu, IntSize]
  omega

theorem Atoi_toString (n : Int) (hlo : -(2 ^ 63 : Int) ≤ n) (hhi : n < 2 ^ 63) :
    Atoi (toString n) = .ok n := by
  cases n with
  | ofNat m =>
    have hm : m < 2 ^ 63 := by
      have : (m : Int) < 2 ^ 63 := hhi
      exact_mod_cast this
    exact ParseInt_toDigits m hm
  | negSucc m =>
    have hm : m + 1 ≤ 2 ^ 63 := by
      have : -(2 ^ 63 : Int) ≤ -((m : Int) + 1) := by
        simpa [Int.negSucc_eq] using hlo
      have h2 : ((m + 1 : Nat) : Int) ≤ 2 ^ 63 := by push_cast; linarith
      exact_mod_cast h2
    have hp := ParseInt_neg_toDigits (m + 1) hm
    have hs : (toString (Int.negSucc m)).data = '-' :: Nat.toDigits 10 (m + 1) := rfl
    have hv : (Int.negSucc m) = - ((m + 1 : Nat) : Int) := rfl
    unfold Atoi
    rw [hs, hp, hv]

end strconv

namespace utils

/-- C1: the rendered text of an `AppError` is its message, a colon and a
space, and the text of the cause when there is a cause, and the message alone
when there is none; the two cases of `TestAppError_Error` are instances. -/
theorem AppError_Error_spec {ε : Type} [GoError ε] (e : AppError ε) :
    (∀ cause : ε, e.Err = some cause →
      e.Error = e.Message ++ ": " ++ GoError.Error cause) ∧
    (e.Err = none → e.Error = e.Message) := by
  constructor
  · intro cause h
    simp [AppError.Error, h]
  · intro h
    simp [AppError.Error, h]

theorem AppError_Error_witness :
    (({ Code := 400, Message := "Invalid input",
        Err := some (GoErr.errorString "field is required") } : AppError GoErr).Error
      = "Invalid input: field is required") ∧
    (({ Code := 404, Message := "Resource not found", Err := none } : AppError GoErr).Error
      = "Resource not found") :=
  ⟨(AppError_Error_spec
      ({ Code := 400, Message := "Invalid input",
         Err := some (GoErr.errorString "field is required") } : AppError GoErr)).1
      (GoErr.errorString "field is required") rfl,
   (AppError_Error_spec
      ({ Code := 404, Message := "Resource not found", Err := none } : AppError GoErr)).2 rfl⟩

/-- C2: each constructor returns an `AppError` with the code of its status
(400, 401, 404, 500), the given message and the given cause, nil or not, and
`NewAppError` returns exactly the three values it is given. -/
theorem constructors_spec {ε : Type} (c : Int) (m : String) (err : Option ε) :
    BadRequestError m err = { Code := 400, Message := m, Err := err } ∧
    UnauthorizedError m err = { Code := 401, Message := m, Err := err } ∧
    NotFoundError m err = { Code := 404, Message := m, Err := err } ∧
    InternalServerError m err = { Code := 500, Message := m, Err := err } ∧
    NewAppError c m err = { Code := c, Message := m, Err := err } :=
  ⟨rfl, rfl, rfl, rfl, rfl⟩

end utils

namespace config

theorem getEnv_unset (env : Environ) (key d : String) (h : env key = none) :
    getEnv env key d = d := by
  simp [getEnv, Getenv, h]

theorem getEnv_set (env : Environ) (key d v : String) (h : env key = some v) (hv : v ≠ "") :
    getEnv env key d = v := by
  simp [getEnv, Getenv, h, hv]

theorem getEnv_Unsetenv (env : Environ) (key other d : String) (h : key ≠ other) :
    getEnv (Unsetenv env other) key d = getEnv env key d := by
  simp [getEnv, Getenv, Unsetenv, h]

theorem getEnvAsInt_unset (env : Environ) (key : String) (d : Int) (h : env key = none) :
    getEnvAsInt env key d = d := by
  simp [getEnvAsInt, Getenv, h]

theorem getEnvAsInt_bad (env : Environ) (key v : String) (d : Int) (e : strconv.NumError)
    (h : env key = some v) (hv : strconv.Atoi v = .error e) :
    getEnvAsInt env key d = d := by
  simp [getEnvAsInt, Getenv, h, hv]

theorem getEnvAsInt_decimal (env : Environ) (key : String) (d n : Int)
    (hlo : -(2 ^ 63 : Int) ≤ n) (hhi : n < 2 ^ 63) (h : env key = some (toString n)) :
    getEnvAsInt env key d = n := by
  have ha := strconv.Atoi_toString n hlo hhi
  have hne : toString n ≠ "" := by
    intro he
    rw [he] at ha
    have hempty : strconv.Atoi "" = .error .ErrSyntax := by decide
    rw [hempty] at ha
    cases ha
  simp [getEnvAsInt, Getenv, h, hne, ha]

/-- C3: `Load` never fails; in an environment where none of the eighteen
variables is set it returns the documented defaults, and in any environment
each field has its default as soon as its own variable is unset. -/
theorem Load_defaults (env : Environ) :
    ((∀ k ∈ recognized, env k = none) → Load env = (some defaults, none)) ∧
    ∃ cfg, Load env = (some cfg, none) ∧
      (env "HTTP_PORT" = none → cfg.HTTPPort = "8080") ∧
      (env "HTTP_HOST" = none → cfg.HTTPHost = "localhost") ∧
      (env "DATABASE_URL" = none → cfg.DatabaseURL = "") ∧
      (env "DB_HOST" = none → cfg.DBHost = "localhost") ∧
      (env "DB_PORT" = none → cfg.DBPort = "5432") ∧
      (env "DB_NAME" = none → cfg.DBName = "jarvis") ∧
      (env "DB_USER" = none → cfg.DBUser = "postgres") ∧
      (env "DB_PASSWORD" = none → cfg.DBPassword = "") ∧
      (env "DB_SSL_MODE" = none → cfg.DBSSLMode = "disable") ∧
      (env "REDIS_URL" = none → cfg.RedisURL = "") ∧
      (env "REDIS_HOST" = none → cfg.RedisHost = "localhost") ∧
      (env "REDIS_PORT" = none → cfg.RedisPort = "6379") ∧
      (env "REDIS_PASSWORD" = none → cfg.RedisPassword = "") ∧
      (env "REDIS_DB" = none → cfg.RedisDB = 0) ∧
      (env "OPENAI_API_KEY" = none → cfg.OpenAIAPIKey = "") ∧
      (env "MODEL_NAME" = none → cfg.ModelName = "gpt-3.5-turbo") ∧
      (env "LOG_LEVEL" = none → cfg.LogLevel = "info") ∧
      (env "JWT_SECRET" = none → cfg.JWTSecret = "your-secret-key") := by
  constructor
  · intro h
    simp only [recognized, List.forall_mem_cons, List.mem_singleton, forall_eq] at h
    obtain ⟨h1, h2, h3, h4, h5, h6, h7, h8, h9, h10, h11, h12, h13, h14, h15, h16, h17, h18⟩ := h
    simp only [Load, defaults, getEnv_unset, getEnvAsInt_unset, h1, h2, h3, h4, h5, h6, h7,
      h8, h9, h10, h11, h12, h13, h14, h15, h16, h17, h18]
  · refine ⟨_, rfl, ?_, ?_, ?_, ?_, ?_, ?_, ?_, ?_, ?_, ?_, ?_, ?_, ?_, ?_, ?_, ?_, ?_, ?_⟩ <;>
      intro h <;>
      first
        | exact getEnv_unset env _ _ h
        | exact getEnvAsInt_unset env _ _ h

theorem Load_defaults_witness : Load emptyEnv = (some defaults, none) :=
  (Load_defaults emptyEnv).1 (fun _ _ => rfl)

/-- C4, as the code has it: a string-valued variable set to a non-empty
value is returned verbatim in its field, whatever the other variables are,
and `REDIS_DB` set to the decimal text of an integer `n` of the 64-bit `int`
range gives `RedisDB = n`. -/
theorem Load_set_values (env : Environ) :
    ∃ cfg, Load env = (some cfg, none) ∧
      (∀ v, env "HTTP_PORT" = some v → v ≠ "" → cfg.HTTPPort = v) ∧
      (∀ v, env "HTTP_HOST" = some v → v ≠ "" → cfg.HTTPHost = v) ∧
      (∀ v, env "DATABASE_URL" = some v → v ≠ "" → cfg.DatabaseURL = v) ∧
      (∀ v, env "DB_HOST" = some v → v ≠ "" → cfg.DBHost = v) ∧
      (∀ v, env "DB_PORT" = some v → v ≠ "" → cfg.DBPort = v) ∧
      (∀ v, env "DB_NAME" = some v → v ≠ "" → cfg.DBName = v) ∧
      (∀ v, env "DB_USER" = some v → v ≠ "" → cfg.DBUser = v) ∧
      (∀ v, env "DB_PASSWORD" = some v → v ≠ "" → cfg.DBPassword = v) ∧
      (∀ v, env "DB_SSL_MODE" = some v → v ≠ "" → cfg.DBSSLMode = v) ∧
      (∀ v, env "REDIS_URL" = some v → v ≠ "" → cfg.RedisURL = v) ∧
      (∀ v, env "REDIS_HOST" = some v → v ≠ "" → cfg.RedisHost = v) ∧
      (∀ v, env "REDIS_PORT" = some v → v ≠ "" → cfg.RedisPort = v) ∧
      (∀ v, env "REDIS_PASSWORD" = some v → v ≠ "" → cfg.RedisPassword = v) ∧
      (∀ v, env "OPENAI_API_KEY" = some v → v ≠ "" → cfg.OpenAIAPIKey = v) ∧
      (∀ v, env "MODEL_NAME" = some v → v ≠ "" → cfg.ModelName = v) ∧
      (∀ v, env "LOG_LEVEL" = some v → v ≠ "" → cfg.LogLevel = v) ∧
      (∀ v, env "JWT_SECRET" = some v → v ≠ "" → cfg.JWTSecret = v) ∧
      (∀ n : Int, -(2 ^ 63 : Int) ≤ n → n < 2 ^ 63 →
        env "REDIS_DB" = some (toString n) → cfg.RedisDB = n) := by
  refine ⟨_, rfl, ?_, ?_, ?_, ?_, ?_, ?_, ?_, ?_, ?_, ?_, ?_, ?_, ?_, ?_, ?_, ?_, ?_, ?_⟩
  case refine_18 =>
    intro n hlo hhi h
    exact getEnvAsInt_decimal env _ _ n hlo hhi h
  all_goals
    intro v h hv
    exact getEnv_set env _ _ v h hv

theorem Load_set_values_witness :
    ∃ cfg, Load testEnv = (some cfg, none) ∧
      cfg.HTTPPort = "9090" ∧ cfg.LogLevel = "debug" ∧ cfg.RedisDB = 3 := by
  obtain ⟨cfg, hl, h1, _, _, _, _, _, _, _, _, _, _, _, _, _, _, h16, _, h18⟩ :=
    Load_set_values testEnv
  exact ⟨cfg, hl, h1 "9090" rfl (by decide), h16 "debug" rfl (by decide),
    h18 3 (by decide) (by decide) rfl⟩

/-- C4 as stated fails twice: `HTTP_PORT` set to the empty string yields the
default port and not the empty value, and `REDIS_DB` set to the decimal text
of `2^63` yields 0. -/
theorem Load_set_values_counterexample :
    (emptyPortEnv "HTTP_PORT" = some "" ∧
      (Load emptyPortEnv).1.map (·.HTTPPort) = some "8080") ∧
    (bigIndexEnv "REDIS_DB" = some (toString (2 ^ 63 : Int)) ∧
      (Load bigIndexEnv).1.map (·.RedisDB) = some 0 ∧ (0 : Int) ≠ 2 ^ 63) := by
  decide

/-- C5: when `REDIS_DB` is set to text that `strconv.Atoi` rejects, `Load`
still returns a configuration and no error, `RedisDB` is the default 0, and
the result is the one `Load` gives with `REDIS_DB` unset. -/
theorem Load_bad_index (env : Environ) (v : String) (e : strconv.NumError)
    (hset : env "REDIS_DB" = some v) (hbad : strconv.Atoi v = .error e) :
    ∃ cfg, Load env = (some cfg, none) ∧ cfg.RedisDB = 0 ∧
      Load (Unsetenv env "REDIS_DB") = (some cfg, none) := by
  refine ⟨_, rfl, getEnvAsInt_bad env _ v 0 e hset hbad, ?_⟩
  have hu : getEnvAsInt (Unsetenv env "REDIS_DB") "REDIS_DB" 0 = 0 :=
    getEnvAsInt_unset _ _ _ (by simp [Unsetenv])
  have hb : getEnvAsInt env "REDIS_DB" 0 = 0 := getEnvAsInt_bad env _ v 0 e hset hbad
  simp only [Load, hu, hb]
  simp [getEnv_Unsetenv]

theorem Load_bad_index_witness :
    ∃ cfg, Load badIndexEnv = (some cfg, none) ∧ cfg.RedisDB = 0 ∧
      Load (Unsetenv badIndexEnv "REDIS_DB") = (some cfg, none) :=
  Load_bad_index badIndexEnv "abc" .ErrSyntax rfl (by decide)

end config

namespace database

theorem New_poolNew_rejected (d : Driver) (cfg : config.Config) (err : GoErr)
    (h : d.poolNew (New.pgConnString cfg) = some err) :
    (New d cfg).run fresh =
      .ok ((none, some (fmtErrorf "failed to connect to PostgreSQL: " err)),
           { pg := .unopened, redis := .unopened,
             calls := [.pgxpoolNew (New.pgConnString cfg)] }) := by
  simp [New, pgxpoolNew, record, h, fresh]
  rfl

theorem New_poolPing_failed (d : Driver) (cfg : config.Config) (err : GoErr)
    (h : d.poolNew (New.pgConnString cfg) = none)
    (hp : d.poolPing (New.pgConnString cfg) = some err) :
    (New d cfg).run fresh =
      .ok ((none, some (fmtErrorf "failed to ping PostgreSQL: " err)),
           { pg := .closed, redis := .unopened,
             calls := [.pgxpoolNew (New.pgConnString cfg), .poolPing, .poolClose] }) := by
  simp [New, pgxpoolNew, Pool.Ping, Pool.Close, record, h, hp, fresh]
  rfl

theorem New_parseURL_rejected (d : Driver) (cfg : config.Config) (err : GoErr)
    (h : d.poolNew (New.pgConnString cfg) = none)
    (hp : d.poolPing (New.pgConnString cfg) = none)
    (hu : cfg.RedisURL ≠ "") (hr : d.parseURL cfg.RedisURL = .error err) :
    (New d cfg).run fresh =
      .ok ((none, some (fmtErrorf "failed to parse Redis URL: " err)),
           { pg := .closed, redis := .unopened,
             calls := [.pgxpoolNew (New.pgConnString cfg), .poolPing,
                       .redisParseURL cfg.RedisURL, .poolClose] }) := by
  simp [New, pgxpoolNew, Pool.Ping, Pool.Close, redisParseURL, record, h, hp, hu, hr, fresh]
  rfl

/-- C6, at the failing input: with a reachable PostgreSQL server and an
unreachable Redis server `New` returns no bundle and an error, the pool is
closed, and the Redis client made by `redis.NewClient` is left open; with an
unreachable PostgreSQL server the pool is closed and nothing else was opened. -/
theorem New_redis_ping_failure_leaks_client :
    (New redisDownDriver config.defaults).run fresh =
      .ok ((none, some (fmtErrorf "failed to connect to Redis: "
              (.errorString "dial tcp: connection refused"))),
           { pg := .closed, redis := .opened,
             calls := [.pgxpoolNew "postgresql://postgres:@localhost:5432/jarvis?sslmode=disable",
                       .poolPing, .redisNewClient ⟨"localhost:6379", "", 0⟩, .clientPing,
                       .poolClose] }) ∧
    (New postgresDownDriver config.defaults).run fresh =
      .ok ((none, some (fmtErrorf "failed to ping PostgreSQL: "
              (.errorString "dial tcp: connection refused"))),
           { pg := .closed, redis := .unopened,
             calls := [.pgxpoolNew "postgresql://postgres:@localhost:5432/jarvis?sslmode=disable",
                       .poolPing, .poolClose] }) := by
  decide

/-- C7: when `pgxpool.New` rejects the connection string, `New` returns no
bundle and a wrapped error, no handle was opened and the only driver call
is that one; when a non-empty `RedisURL` is rejected by `redis.ParseURL`,
`New` returns no bundle and an error, the pool is not open (it is closed if
it had been opened), and no Redis client was created. -/
theorem New_malformed_url (d : Driver) (cfg : config.Config) :
    (∀ err, d.poolNew (New.pgConnString cfg) = some err →
      (New d cfg).run fresh =
        .ok ((none, some (fmtErrorf "failed to connect to PostgreSQL: " err)),
             { pg := .unopened, redis := .unopened,
               calls := [.pgxpoolNew (New.pgConnString cfg)] })) ∧
    (∀ err, cfg.RedisURL ≠ "" → d.parseURL cfg.RedisURL = .error err →
      ∃ e st, (New d cfg).run fresh = .ok ((none, some e), st) ∧
        st.pg ≠ .opened ∧ st.redis = .unopened ∧
        (∀ o, Call.redisNewClient o ∉ st.calls) ∧
        (d.poolNew (New.pgConnString cfg) = none → st.pg = .closed) ∧
        (d.poolNew (New.pgConnString cfg) = none →
          d.poolPing (New.pgConnString cfg) = none →
            e = fmtErrorf "failed to parse Redis URL: " err ∧
            st.calls = [.pgxpoolNew (New.pgConnString cfg), .poolPing,
                        .redisParseURL cfg.RedisURL, .poolClose])) := by
  refine ⟨fun err h => New_poolNew_rejected d cfg err h, ?_⟩
  intro err hu hr
  cases h : d.poolNew (New.pgConnString cfg) with
  | some e1 =>
    exact ⟨_, _, New_poolNew_rejected d cfg e1 h, by simp, rfl, by simp, by simp, by simp⟩
  | none =>
    cases hp : d.poolPing (New.pgConnString cfg) with
    | some e2 =>
      exact ⟨_, _, New_poolPing_failed d cfg e2 h hp, by simp, rfl, by simp, by simp, by simp⟩
    | none =>
      exact ⟨_, _, New_parseURL_rejected d cfg err h hp hu hr, by simp, rfl, by simp,
        by simp, by simp⟩

theorem New_malformed_url_witness :
    (New strictDriver invalidConfig).run fresh =
      .ok ((none, some (fmtErrorf "failed to connect to PostgreSQL: "
              (.errorString "cannot parse connection string"))),
           { pg := .unopened, redis := .unopened,
             calls := [.pgxpoolNew "invalid://connection/string"] }) ∧
    ∃ e st, (New laxPoolDriver invalidConfig).run fresh = .ok ((none, some e), st) ∧
      st.pg ≠ .opened ∧ st.redis = .unopened ∧
      (∀ o, Call.redisNewClient o ∉ st.calls) ∧ st.pg = .closed := by
  refine ⟨(New_malformed_url strictDriver invalidConfig).1 _ rfl, ?_⟩
  obtain ⟨e, st, h1, h2, h3, h4, h5, _⟩ :=
    (New_malformed_url laxPoolDriver invalidConfig).2
      (.errorString "redis: invalid URL scheme") (by decide) rfl
  exact ⟨e, st, h1, h2, h3, h4, h5 rfl⟩

theorem close_error_text_ne (x y : String) :
    "Redis close error: " ++ x ≠ "PostgreSQL close error: " ++ y := by
  intro h
  have hd := congrArg String.data h
  simp only [String.data_append] at hd
  simp at hd

/-- C10: `DB.Close` never panics; it closes the pool if that handle is
non-nil and then the Redis client if that handle is non-nil, and touches
nothing else; it returns an error exactly when the Redis handle is non-nil
and its `Close` fails, and that error wraps the failure behind the text
`Redis close error: `; it never returns a `PostgreSQL close error`; with
both handles nil it returns nil and changes nothing. -/
theorem DB_Close_spec (d : Driver) (db : DB) (st : Conns) :
    ∃ res st1, (DB.Close d db).run st = .ok (res, st1) ∧
      st1.pg = (if db.Postgres ≠ none then .closed else st.pg) ∧
      st1.redis = (if db.Redis ≠ none then .closed else st.redis) ∧
      st1.calls = st.calls ++ (if db.Postgres ≠ none then [Call.poolClose] else [])
        ++ (if db.Redis ≠ none then [Call.clientClose] else []) ∧
      (res ≠ none ↔ db.Redis ≠ none ∧ d.clientClose ≠ none) ∧
      (∀ e, res = some e → ∃ cause, d.clientClose = some cause ∧
        e = .wrapError ("Redis close error: " ++ cause.Error) cause ∧
        e.Unwrap = some cause) ∧
      (∀ cause, res ≠ some (fmtErrorf "PostgreSQL close error: " cause)) ∧
      (db.Postgres = none → db.Redis = none → res = none ∧ st1 = st) := by
  obtain ⟨pg, rd⟩ := db
  obtain ⟨d1, d2, d3, d4, cc⟩ := d
  obtain ⟨s1, s2, s3⟩ := st
  cases pg <;> cases rd <;> cases cc <;>
    refine ⟨_, _, rfl, ?_⟩ <;>
    simp [fmtErrorf, GoErr.Unwrap, close_error_text_ne]

theorem DB_Close_spec_witness :
    ∃ res st1,
      (DB.Close { strictDriver with clientClose := some (.errorString "redis: client is closed") }
        { Postgres := some ⟨"postgresql://h/db"⟩, Redis := some ⟨⟨"h:6379", "", 0⟩⟩ }).run
        { pg := .opened, redis := .opened, calls := [] } = .ok (res, st1) ∧
      st1.pg = .closed ∧ st1.redis = .closed ∧
      st1.calls = [Call.poolClose, Call.clientClose] ∧
      res = some (.wrapError "Redis close error: redis: client is closed"
        (.errorString "redis: client is closed")) := by
  obtain ⟨res, st1, h1, h2, h3, h4, h5, h6, _, _⟩ :=
    DB_Close_spec { strictDriver with clientClose := some (.errorString "redis: client is closed") }
      { Postgres := some ⟨"postgresql://h/db"⟩, Redis := some ⟨⟨"h:6379", "", 0⟩⟩ }
      { pg := .opened, redis := .opened, calls := [] }
  refine ⟨res, st1, h1, by simpa using h2, by simpa using h3, by simpa using h4, ?_⟩
  have hne : res ≠ none := h5.2 ⟨by simp, by simp⟩
  cases res with
  | none => exact absurd rfl hne
  | some e =>
    obtain ⟨cause, hc, he, _⟩ := h6 e rfl
    simp only [Option.some.injEq] at hc
    subst hc
    rw [he]
    rfl

end database

namespace core

theorem RunInv_step (a : App) (l : logger.Logger) (o : logger.Sink) (seen b : Bool)
    (s : RunState) (hl : a.logger = some l) (h : RunInv l o seen s) :
    RunInv l o (seen || b) (App.Run.step a (some b) s) := by
  obtain ⟨pc, out⟩ := s
  cases pc <;> cases b <;> simp_all [RunInv, App.Run.step]

theorem RunInv_foldl (a : App) (l : logger.Logger) (o : logger.Sink)
    (hl : a.logger = some l) (obs : List Bool) :
    ∀ (seen : Bool) (s : RunState), RunInv l o seen s →
      RunInv l o (seen || obs.any id)
        ((obs.map some).foldl (fun s c => App.Run.step a c s) s) := by
  induction obs with
  | nil => intro seen s h; simpa using h
  | cons b bs ih =>
    intro seen s h
    have := ih (seen || b) _ (RunInv_step a l o seen b s hl h)
    simpa [List.any_cons, Bool.or_assoc] using this

theorem RunInv_exec (a : App) (l : logger.Logger) (o : logger.Sink)
    (hl : a.logger = some l) (obs : List Bool) :
    RunInv l o (obs.any id) (App.Run.exec a o (obs.map some)) := by
  have := RunInv_foldl a l o hl obs false { pc := .line23, out := o } rfl
  simpa [App.Run.exec] using this

theorem Run_finishes (a : App) (l : logger.Logger) (o : logger.Sink) (seen : Bool)
    (s : RunState) (hl : a.logger = some l) (h : RunInv l o seen s) :
    App.Run.step a (some true) (App.Run.step a (some true)
      (App.Run.step a (some true) (App.Run.step a (some true) s)))
      = { pc := .returned none,
          out := l.Info "Application stopped" (l.Info "Starting Jarvis AI Assistant..." o) } := by
  obtain ⟨pc, out⟩ := s
  cases pc <;> simp_all [RunInv, App.Run.step]

theorem returned_nil_step (a : App) (c : Option Bool) (s : RunState)
    (h : ∀ e, s.pc = .returned e → e = none) :
    ∀ e, (App.Run.step a c s).pc = .returned e → e = none := by
  obtain ⟨pc, out⟩ := s
  obtain ⟨cfg, lg⟩ := a
  cases pc <;> cases lg <;> rcases c with _ | _ | _ <;> simp_all [App.Run.step]

theorem returned_nil_foldl (a : App) (ctxs : List (Option Bool)) :
    ∀ s : RunState, (∀ e, s.pc = .returned e → e = none) →
      ∀ e, (ctxs.foldl (fun s c => App.Run.step a c s) s).pc = .returned e → e = none := by
  induction ctxs with
  | nil => intro s h; exact h
  | cons c cs ih => intro s h; exact ih _ (returned_nil_step a c s h)

end core

namespace jarvis

theorem sub_snoc {l t : List Event} (e : Event) (h : List.Sublist l t) :
    List.Sublist l (t ++ [e]) :=
  h.trans (List.sublist_append_left t [e])

theorem sub_extend {l t : List Event} (e : Event) (h : List.Sublist l t) :
    List.Sublist (l ++ [e]) (t ++ [e]) :=
  List.Sublist.append h (List.Sublist.refl [e])

theorem traceOk_zero (t : List Event) : traceOk 0 t :=
  ⟨.SIGINT, by simp⟩

theorem traceOk_mono {k j : Nat} {t : List Event} (hjk : j ≤ k) (h : traceOk k t) :
    traceOk j t := by
  obtain ⟨sig, hs⟩ := h
  refine ⟨sig, List.Sublist.trans ?_ hs⟩
  exact (List.take_sublist_take_left (chain sig) hjk)

theorem traceOk_snoc {k : Nat} {t : List Event} (e : Event) (h : traceOk k t) :
    traceOk k (t ++ [e]) := by
  obtain ⟨sig, hs⟩ := h
  exact ⟨sig, sub_snoc e hs⟩

theorem traceOk_two {t : List Event} {sig : Signal} (h : Event.delivered sig ∈ t) :
    traceOk 2 (t ++ [.received sig]) :=
  ⟨sig, sub_extend (.received sig) (List.singleton_sublist.mpr h)⟩

theorem traceOk_three {t : List Event} (h : traceOk 2 t) :
    traceOk 3 (t ++ [.shutdownLogged]) := by
  obtain ⟨sig, hs⟩ := h
  exact ⟨sig, sub_extend .shutdownLogged hs⟩

theorem traceOk_four {t : List Event} (h : traceOk 3 t) :
    traceOk 4 (t ++ [.cancel]) := by
  obtain ⟨sig, hs⟩ := h
  exact ⟨sig, sub_extend .cancel hs⟩

theorem traceOk_five {t : List Event} (h : traceOk 4 t) :
    traceOk 5 (t ++ [.runReturned]) := by
  obtain ⟨sig, hs⟩ := h
  exact ⟨sig, sub_extend .runReturned hs⟩

theorem Inv_init (o : logger.Sink) : Inv o (init o) := by
  simp only [Inv, init, stage, Sys.runReturned, mainOk]
  simp
  exact ⟨traceOk_zero [], fun r hr _ => hr⟩

theorem Inv_signal (o : logger.Sink) (sig : Signal) (s : Sys) (h : Inv o s) :
    Inv o (signalStep sig s) := by
  obtain ⟨main, listener, notify, sigChan, ctxDone, out, trace⟩ := s
  obtain ⟨hA, hB, hC, hD, hE, hF, hG, hH⟩ := h
  have hB1 := traceOk_snoc (Event.delivered sig) hB
  cases main <;> cases notify <;> cases sigChan <;>
    simp_all [Inv, signalStep, Sys.over, stage, Sys.runReturned, mainOk, traceOk_zero]

theorem Inv_listener (lg : logger.Logger) (o : logger.Sink) (s : Sys) (h : Inv o s) :
    Inv o (listenerStep lg s) := by
  obtain ⟨main, listener, notify, sigChan, ctxDone, out, trace⟩ := s
  obtain ⟨hA, hB, hC, hD, hE, hF, hG, hH⟩ := h
  rcases main with _ | _ | _ | (_ | _ | _ | _ | (_ | e) | _) | _ | _ | _ | (_ | n) | _ <;>
    cases listener <;> cases sigChan <;> cases ctxDone <;>
    simp_all [Inv, listenerStep, cancel, Sys.over, stage, Sys.runReturned, mainOk, traceOk_zero,
      traceOk_two, traceOk_three, traceOk_four, traceOk_five, traceOk_snoc,
      logger.Logger.Info, logger.Logger.log, shutdownRecord, or_imp, forall_and]

theorem Inv_main (cfg : Option config.Config) (lg : logger.Logger) (o : logger.Sink) (s : Sys)
    (h : Inv o s) : Inv o (mainStep cfg lg s) := by
  obtain ⟨main, listener, notify, sigChan, ctxDone, out, trace⟩ := s
  obtain ⟨hA, hB, hC, hD, hE, hF, hG, hH⟩ := h
  rcases main with _ | _ | _ | (_ | _ | _ | _ | (_ | e) | _) | _ | _ | _ | (_ | n) | _ <;>
    cases listener <;> cases ctxDone <;>
    simp_all [Inv, mainStep, app, cancel, Sys.over, stage, Sys.runReturned, mainOk, traceOk_zero,
      traceOk_five, traceOk_snoc, core.App.Run.step,
      logger.Logger.Info, logger.Logger.log, shutdownRecord, or_imp, forall_and]

theorem Inv_step (cfg : Option config.Config) (lg : logger.Logger) (o : logger.Sink)
    (act : Action) (s : Sys) (h : Inv o s) : Inv o (step cfg lg act s) := by
  cases act with
  | signal sig => exact Inv_signal o sig s h
  | main => exact Inv_main cfg lg o s h
  | listener => exact Inv_listener lg o s h

theorem Inv_foldl (cfg : Option config.Config) (lg : logger.Logger) (o : logger.Sink)
    (acts : List Action) :
    ∀ s, Inv o s → Inv o (acts.foldl (fun s act => step cfg lg act s) s) := by
  induction acts with
  | nil => intro s h; exact h
  | cons act rest ih => intro s h; exact ih _ (Inv_step cfg lg o act s h)

theorem Inv_exec (cfg : Option config.Config) (lg : logger.Logger) (o : logger.Sink)
    (acts : List Action) : Inv o (exec cfg lg o acts) :=
  Inv_foldl cfg lg o acts _ (Inv_init o)

theorem ctxDone_step (cfg : Option config.Config) (lg : logger.Logger) (act : Action) (s : Sys)
    (h : s.ctxDone = true) : (step cfg lg act s).ctxDone = true := by
  obtain ⟨main, listener, notify, sigChan, ctxDone, out, trace⟩ := s
  simp only at h
  subst h
  cases act with
  | signal sig =>
    simp only [step, signalStep]
    split_ifs <;> rfl
  | listener =>
    simp only [step, listenerStep]
    split_ifs
    · rfl
    · cases listener <;> cases sigChan <;> simp [cancel]
  | main =>
    rcases main with _ | _ | _ | (_ | _ | _ | _ | (_ | e) | _) | _ | _ | _ | (_ | n) | _ <;>
      simp [step, mainStep, app, cancel, core.App.Run.step]

/-- C8, as the code has it: `NewApp` returns an `App` with the given
configuration and logger, nil or not, and no error.  For an `App` whose
logger is not nil and a context that is not nil, `Run` first logs its start
message at info level, whatever the state of the context; at line 29 it does
not move while the context is not cancelled, so it has not returned as long
as no step saw the context cancelled; it never panics; when it has returned,
the error is nil, the context was seen cancelled, and the log calls are the
start message then the stop message; once the context stays cancelled, four
steps at most bring it to `return nil`.  For every `App` and every context,
nil or not, a returned error is nil.  In `main`, `Run` never yields an error,
the fatal branch of line 46 is never entered, the exit status is 0, and no
error-level record is logged. -/
theorem Run_single_exit (a : core.App) (o : logger.Sink) (obs : List Bool)
    (ctxs : List (Option Bool)) (cfg : Option config.Config) (log : Option logger.Logger)
    (lg : logger.Logger) (acts : List Action) :
    core.NewApp cfg log = (some { config := cfg, logger := log }, none) ∧
    (∀ l, a.logger = some l →
      (∀ c, core.App.Run.step a c { pc := .line23, out := o } =
        { pc := .line29, out := l.Info "Starting Jarvis AI Assistant..." o }) ∧
      (∀ out, core.App.Run.step a (some false) { pc := .line29, out := out } =
        { pc := .line29, out := out }) ∧
      (core.App.Run.exec a o (obs.map some)).pc ≠ .panicked ∧
      ((∀ b ∈ obs, b = false) →
        ∀ e, (core.App.Run.exec a o (obs.map some)).pc ≠ .returned e) ∧
      (∀ e, (core.App.Run.exec a o (obs.map some)).pc = .returned e →
        e = none ∧ true ∈ obs ∧
        (core.App.Run.exec a o (obs.map some)).out.calls
          = o.calls ++ [core.startRecord, core.stopRecord]) ∧
      ((core.App.Run.exec a o ((obs ++ [true, true, true, true]).map some)).pc
          = .returned none ∧
        (core.App.Run.exec a o ((obs ++ [true, true, true, true]).map some)).out.calls
          = o.calls ++ [core.startRecord, core.stopRecord])) ∧
    (∀ e, (core.App.Run.exec a o ctxs).pc = .returned e → e = none) ∧
    ((∀ e, (exec cfg lg o acts).main = .line45 (.returned e) → e = none) ∧
      (∀ e, (exec cfg lg o acts).main ≠ .line46 e) ∧
      (∀ n, (exec cfg lg o acts).main = .exited n → n = 0) ∧
      (∀ r ∈ (exec cfg lg o acts).out.calls, r.level = .error → r ∈ o.calls)) := by
  refine ⟨rfl, ?_, ?_, ?_⟩
  · intro l hl
    have hinv := core.RunInv_exec a l o hl obs
    have hret : ∀ e, (core.App.Run.exec a o (obs.map some)).pc = .returned e →
        e = none ∧ true ∈ obs ∧
        (core.App.Run.exec a o (obs.map some)).out.calls
          = o.calls ++ [core.startRecord, core.stopRecord] := by
      intro e he
      unfold core.RunInv at hinv
      rw [he] at hinv
      obtain ⟨h1, h2, h3⟩ := hinv
      refine ⟨h1, ?_, ?_⟩
      · simpa using h3
      · rw [h2]
        simp [logger.Logger.Info, logger.Logger.log, core.startRecord, core.stopRecord]
    refine ⟨?_, ?_, ?_, ?_, hret, ?_⟩
    · intro c
      simp [core.App.Run.step, hl]
    · intro out
      simp [core.App.Run.step]
    · intro hp
      unfold core.RunInv at hinv
      rw [hp] at hinv
      exact hinv
    · intro hall e he
      obtain ⟨_, hmem, _⟩ := hret e he
      exact absurd (hall true hmem) (by decide)
    · have hfin := core.Run_finishes a l o _ _ hl hinv
      have hex : core.App.Run.exec a o ((obs ++ [true, true, true, true]).map some)
          = core.App.Run.step a (some true) (core.App.Run.step a (some true)
              (core.App.Run.step a (some true)
                (core.App.Run.step a (some true) (core.App.Run.exec a o (obs.map some))))) := by
        simp [core.App.Run.exec, List.foldl_append]
      rw [hex, hfin]
      simp [logger.Logger.Info, logger.Logger.log, core.startRecord, core.stopRecord]
  · exact core.returned_nil_foldl a ctxs _ (by simp)
  · obtain ⟨_, _, _, hD, _, hF, _, _⟩ := Inv_exec cfg lg o acts
    refine ⟨?_, ?_, ?_, hF⟩
    · intro e he
      rw [mainOk, he] at hD
      cases e with
      | none => rfl
      | some err => exact absurd hD (by simp)
    · intro e he
      rw [mainOk, he] at hD
      exact hD
    · intro n hn
      rw [mainOk, hn] at hD
      cases n with
      | zero => rfl
      | succ k => exact absurd hD (by simp)

/-- A run with an info-level logger whose context is cancelled at its third
step: it returns nil after the start and stop messages. -/
theorem Run_single_exit_witness :
    core.infoApp.logger = some (logger.New "info") ∧
    (core.App.Run.exec core.infoApp .empty
      ([false, false, true, true, true].map some)).pc = .returned none ∧
    true ∈ [false, false, true, true, true] ∧
    (core.App.Run.exec core.infoApp .empty
      ([false, false, true, true, true].map some)).out.calls
      = [core.startRecord, core.stopRecord] ∧
    (∀ e, (core.App.Run.exec core.infoApp .empty ([false, false].map some)).pc
      ≠ .returned e) := by
  have h := (Run_single_exit core.infoApp .empty [false, false, true, true, true] [] none none
    (logger.New "info") []).2.1 (logger.New "info") rfl
  have h2 := (Run_single_exit core.infoApp .empty [false, false] [] none none
    (logger.New "info") []).2.1 (logger.New "info") rfl
  have hp : (core.App.Run.exec core.infoApp .empty
      ([false, false, true, true, true].map some)).pc = .returned none := by decide
  obtain ⟨_, hm, hc⟩ := h.2.2.2.2.1 none hp
  exact ⟨rfl, hp, hm, by simpa [logger.Sink.empty] using hc, h2.2.2.2.1 (by decide)⟩

/-- C8 as stated fails on an `App` with a nil logger, which `NewApp` builds
without an error: `Run` panics on line 23, logs nothing and never returns,
although the context is cancelled; and with a non-nil logger and a nil
context `Run` panics on line 29 after the start message. -/
theorem Run_single_exit_counterexample :
    core.NewApp (some config.defaults) none = (some core.nilLoggerApp, none) ∧
    core.App.Run.exec core.nilLoggerApp .empty [some true, some true, some true, some true]
      = { pc := .panicked, out := .empty } ∧
    (core.App.Run.exec core.infoApp .empty [none, none, none, none]).pc = .panicked ∧
    (core.App.Run.exec core.infoApp .empty [none, none, none, none]).out.calls
      = [core.startRecord] := by
  decide

/-- C9: in every reachable state of the lifecycle where `app.Run` has
returned, the trace holds, in this order, the delivery of a SIGINT or
SIGTERM, its receipt by the listener, the shutdown message, the
cancellation and the return of `Run`; in every reachable state where the
context is cancelled the listener has finished, having logged the shutdown
message before cancelling, and while the context is not cancelled no
cancellation has been recorded; a cancelled context stays cancelled under
every step. -/
theorem lifecycle_order (cfg : Option config.Config) (lg : logger.Logger) (o : logger.Sink)
    (acts : List Action) :
    ((exec cfg lg o acts).runReturned = true →
      (∃ sig, List.Sublist (chain sig) (exec cfg lg o acts).trace) ∧
      (exec cfg lg o acts).ctxDone = true ∧ (exec cfg lg o acts).listener = .finished ∧
      shutdownRecord ∈ (exec cfg lg o acts).out.calls) ∧
    ((exec cfg lg o acts).ctxDone = true →
      (∃ sig, List.Sublist
        [Event.delivered sig, .received sig, .shutdownLogged, .cancel]
        (exec cfg lg o acts).trace) ∧
      (exec cfg lg o acts).listener = .finished ∧
      shutdownRecord ∈ (exec cfg lg o acts).out.calls) ∧
    ((exec cfg lg o acts).ctxDone = false → Event.cancel ∉ (exec cfg lg o acts).trace) ∧
    (∀ act, (exec cfg lg o acts).ctxDone = true →
      (step cfg lg act (exec cfg lg o acts)).ctxDone = true) := by
  obtain ⟨_, hB, hC, hD, hE, _, _, hH⟩ := Inv_exec cfg lg o acts
  have hdone : (exec cfg lg o acts).ctxDone = true →
      (∃ sig, List.Sublist
        [Event.delivered sig, .received sig, .shutdownLogged, .cancel]
        (exec cfg lg o acts).trace) ∧
      (exec cfg lg o acts).listener = .finished ∧
      shutdownRecord ∈ (exec cfg lg o acts).out.calls := by
    intro hc
    have hl := hC.mp hc
    refine ⟨?_, hl, hE (Or.inr hl)⟩
    have h4 : 4 ≤ stage (exec cfg lg o acts) := by
      unfold stage
      rw [hl]
      split_ifs <;> simp
    exact traceOk_mono h4 hB
  refine ⟨?_, hdone, hH, fun act h => ctxDone_step cfg lg act _ h⟩
  intro hr
  have hc : (exec cfg lg o acts).ctxDone = true := by
    unfold Sys.runReturned at hr
    unfold mainOk at hD
    generalize (exec cfg lg o acts).main = m at hr hD
    rcases m with _ | _ | _ | (_ | _ | _ | _ | (_ | e) | _) | _ | _ | _ | (_ | n) | _ <;>
      simp_all
  obtain ⟨_, hl, hs⟩ := hdone hc
  refine ⟨?_, hc, hl, hs⟩
  have h5 : stage (exec cfg lg o acts) = 5 := by simp [stage, hr]
  rw [h5] at hB
  exact hB

theorem lifecycle_order_witness :
    (exec (some config.defaults) (logger.New "info") .empty sampleSchedule).runReturned = true ∧
    (∃ sig, List.Sublist (chain sig)
      (exec (some config.defaults) (logger.New "info") .empty sampleSchedule).trace) ∧
    (exec (some config.defaults) (logger.New "info") .empty sampleSchedule).ctxDone = true ∧
    (exec (some config.defaults) (logger.New "info") .empty sampleSchedule).listener
      = .finished ∧
    shutdownRecord ∈
      (exec (some config.defaults) (logger.New "info") .empty sampleSchedule).out.calls :=
  ⟨by decide,
   (lifecycle_order (some config.defaults) (logger.New "info") .empty sampleSchedule).1
     (by decide)⟩

end jarvis
